import Mathlib

/-!
# EduHub MongoDB project — verification of the specification

Shallow embedding of the EduHub data-access façade (`EduHubDB`) and the
notebook that drives it.  The repository ships only the notebook
(`notebooks/eduhub_mongodb_project.ipynb`) and a README; the module
`eduhub_queries.py` that implements the `EduHubDB` class is referenced by
both but absent, so the façade's operations are modelled from the
specification's §4.1 operation contracts, while the notebook's own code
(sample data, direct collection queries, the round-robin enrollment loop)
is embedded from the notebook source.
-/

namespace EduHub

/-- A user's embedded `profile` sub-document.  Both keys may be absent in a
schema-less document, hence `Option`. -/
structure Profile where
  bio : Option String
  skills : Option (List String)
deriving DecidableEq, Repr

/-- A `users`-collection document (spec §3).  `email`, `firstName`,
`lastName` and `role` are the required fields checked by `add_user`;
`profile`, `isActive` and `createdAt` may be absent. -/
structure UserDoc where
  email : String
  firstName : String
  lastName : String
  role : String
  profile : Option Profile
  isActive : Option Bool
  createdAt : Option Nat
deriving DecidableEq, Repr

/-- A `courses`-collection document (spec §3).  Prices are decimals,
modelled as rationals. -/
structure CourseDoc where
  title : String
  description : String
  instructorId : Nat
  category : String
  level : String
  price : Rat
  tags : List String
deriving DecidableEq, Repr

/-- An `enrollments`-collection document (spec §3): links one student to
one course.  `enrolledAt` and `status` values are not fixed by the spec, so
they stay optional. -/
structure EnrollmentDoc where
  studentId : Nat
  courseId : Nat
  enrolledAt : Option Nat
  status : Option String
deriving DecidableEq, Repr

/-- An index declaration: collection, indexed field, uniqueness flag. -/
structure IndexSpec where
  coll : String
  field : String
  unique : Bool
deriving DecidableEq, Repr

/-- The database state behind the façade: the three collections the claims
touch, each a list of (generated identifier, document) pairs, the counter
producing fresh identifiers, and the set of declared indexes. -/
structure EduHubDB where
  users : List (Nat × UserDoc)
  courses : List (Nat × CourseDoc)
  enrollments : List (Nat × EnrollmentDoc)
  nextId : Nat
  indexes : List IndexSpec
deriving DecidableEq, Repr

/-- The empty database a fresh deployment starts from. -/
def emptyDB : EduHubDB :=
  { users := [], courses := [], enrollments := [], nextId := 0, indexes := [] }

/-- Modelled from the spec (`eduhub_queries.py` is absent): "email must be
syntactically valid".  An email is well formed when it has exactly one
`@`, a nonempty local part, and a nonempty domain containing a dot — the
notebook's error-handling cell treats `"invalid-email"` (no `@`) as
malformed. -/
def valid_email (s : String) : Bool :=
  match s.data.splitOn '@' with
  | [lpart, domain] =>
      !lpart.isEmpty && !domain.isEmpty && domain.contains '.'
  | _ => false

/-- The role enumeration of spec §3: `{student, instructor}`. -/
def valid_role (r : String) : Bool :=
  r == "student" || r == "instructor"

/-- Modelled from the spec (`eduhub_queries.py` is absent):
"`add_user(doc)`: inserts a User document after validating required fields
and role enumeration; returns the generated identifier; fails with a
ValidationError when email format or role is invalid."  On failure the
state is returned unchanged; on success the document is stored exactly as
supplied under a fresh identifier. -/
def add_user (db : EduHubDB) (doc : UserDoc) : Except String Nat × EduHubDB :=
  if valid_email doc.email && valid_role doc.role then
    (Except.ok db.nextId,
      { db with users := db.users ++ [(db.nextId, doc)], nextId := db.nextId + 1 })
  else
    (Except.error "ValidationError", db)

/-- Resolve a user identifier, as a driver `find_one({_id: id})` would. -/
def find_user_by_id (db : EduHubDB) (id : Nat) : Option UserDoc :=
  (db.users.find? (fun p => p.1 == id)).map (fun p => p.2)

/-- Identifiers already stored in `users` are strictly below the fresh-id
counter; holds for every state reachable from `emptyDB`. -/
def users_wf (db : EduHubDB) : Prop :=
  ∀ p ∈ db.users, p.1 < db.nextId

instance : DecidablePred users_wf := fun db =>
  inferInstanceAs (Decidable (∀ p ∈ db.users, p.1 < db.nextId))

/-- Modelled from the spec (`eduhub_queries.py` is absent):
"`add_course(doc)`: inserts a Course document; returns generated
identifier." -/
def add_course (db : EduHubDB) (doc : CourseDoc) : Nat × EduHubDB :=
  (db.nextId,
    { db with courses := db.courses ++ [(db.nextId, doc)], nextId := db.nextId + 1 })

/-- Modelled from the spec (`eduhub_queries.py` is absent):
"`enroll_student(studentId, courseId)`: inserts an Enrollment document
linking the two".  The spec leaves referential validation explicitly open
(§9), so the default it states — "otherwise simply inserts without
referential enforcement" — is modelled: the insert always succeeds. -/
def enroll_student (db : EduHubDB) (studentId courseId : Nat) :
    Except String Nat × EduHubDB :=
  (Except.ok db.nextId,
    { db with
        enrollments := db.enrollments ++
          [(db.nextId,
            { studentId := studentId, courseId := courseId,
              enrolledAt := none, status := none })],
        nextId := db.nextId + 1 })

/-- One dotted-path field of an `update_user_profile` partial update.  The
constructors name the dotted paths the update language reaches. -/
inductive UpdateField
  | profileBio (v : String)
  | firstNameF (v : String)
  | lastNameF (v : String)
  | isActiveF (v : Bool)
deriving DecidableEq, Repr

/-- Apply a `$set` of a single dotted path to a user document.  Setting
`profile.bio` on a document without a `profile` sub-document creates one
holding only `bio`; an existing `skills` key is preserved. -/
def applyField (u : UserDoc) : UpdateField → UserDoc
  | .profileBio v =>
      { u with profile := some ⟨some v, u.profile.bind (fun p => p.skills)⟩ }
  | .firstNameF v => { u with firstName := v }
  | .lastNameF v => { u with lastName := v }
  | .isActiveF v => { u with isActive := some v }

/-- Rewrite one stored `(id, document)` pair: apply the partial update when
the identifier matches, leave the pair alone otherwise. -/
def updateEntry (userId : Nat) (partialFields : List UpdateField)
    (p : Nat × UserDoc) : Nat × UserDoc :=
  if p.1 == userId then (p.1, partialFields.foldl applyField p.2) else p

/-- Modelled from the spec (`eduhub_queries.py` is absent):
"`update_user_profile(userId, partialFields)`: applies a partial field
update (dotted-path semantics) to a User document; no-op success if the
identifier does not match any document."  Total: the call never raises. -/
def update_user_profile (db : EduHubDB) (userId : Nat)
    (partialFields : List UpdateField) : EduHubDB :=
  { db with users := db.users.map (updateEntry userId partialFields) }

/-- Number of enrollment documents referencing course `c`. -/
def enrollCount (db : EduHubDB) (c : Nat) : Nat :=
  (db.enrollments.filter (fun e => e.2.courseId == c)).length

/-- Modelled from the spec (`eduhub_queries.py` is absent):
"`get_course_enrollment_stats()`: runs a fixed aggregation pipeline
(group-by-course, count of enrollments) and returns the result set" — one
`(courseId, count)` row per course that has at least one enrollment. -/
def get_course_enrollment_stats (db : EduHubDB) : List (Nat × Nat) :=
  ((db.enrollments.map (fun e => e.2.courseId)).dedup).map
    (fun c => (c, enrollCount db c))

/-- Enrollments the statistics attribute to course `c`: the count in its
group row, `0` when the course has no row. -/
def statsFor (db : EduHubDB) (c : Nat) : Nat :=
  match (get_course_enrollment_stats db).find? (fun row => row.1 == c) with
  | some row => row.2
  | none => 0

/-- The unique index on `users.email` the spec names explicitly. -/
def uniqueEmailIndex : IndexSpec :=
  { coll := "users", field := "email", unique := true }

/-- The fixed set of indexes `create_indexes` declares (spec §4.1 names the
unique email index as its example). -/
def declaredIndexes : List IndexSpec := [uniqueEmailIndex]

/-- Declare one index, as the driver's `create_index` does: a no-op when an
identical index already exists. -/
def declareIndex (db : EduHubDB) (s : IndexSpec) : EduHubDB :=
  if s ∈ db.indexes then db else { db with indexes := db.indexes ++ [s] }

/-- Modelled from the spec (`eduhub_queries.py` is absent):
"`create_indexes()`: declares a fixed set of indexes (e.g., unique index on
`email`) at setup time; idempotent."  Total: the call never fails. -/
def create_indexes (db : EduHubDB) : EduHubDB :=
  declaredIndexes.foldl declareIndex db

/-- A numeric comparison operator of the query language, `{"$gte": b}` or
`{"$lte": b}`. -/
inductive NumCond
  | gte (b : Rat)
  | lte (b : Rat)
deriving DecidableEq, Repr

/-- Evaluate one comparison operator at a field value. -/
def evalNumCond (v : Rat) : NumCond → Bool
  | .gte b => b ≤ v
  | .lte b => v ≤ b

/-- Embeds `db.db.courses.find` with a `price` filter (notebook, Part 4):
the documents whose `price` field satisfies every operator of the
filter. -/
def find_courses_by_price (db : EduHubDB) (conds : List NumCond) :
    List (Nat × CourseDoc) :=
  db.courses.filter (fun p => conds.all (evalNumCond p.2.price))

/-- The notebook's price filter: `{"price": {"$gte": 50, "$lte": 200}}`. -/
def priceRangeFilter : List NumCond := [.gte 50, .lte 200]

/-- Embeds the notebook's active-students read (Part 3), an equality match
on `role = "student"` and `isActive = true`; a document missing `isActive`
does not match. -/
def find_active_students (db : EduHubDB) : List (Nat × UserDoc) :=
  db.users.filter (fun p => p.2.role == "student" && p.2.isActive == some true)

/-! ## The notebook's data-population scenario

Embeds the notebook cells: sample users and courses, their insertion, and
the round-robin enrollment loop.  The decimal `99.99 * i` price is
modelled as the rational `9999/100 * i`. -/

/-- The ten sample student documents (notebook, Part 2): `isActive`,
`createdAt` and `profile` are omitted. -/
def studentDocs : List UserDoc :=
  (List.range' 1 10).map (fun i =>
    { email := "student" ++ toString i ++ "@example.com",
      firstName := "Student", lastName := toString i, role := "student",
      profile := none, isActive := none, createdAt := none })

/-- The five sample instructor documents (notebook, Part 2). -/
def instructorDocs : List UserDoc :=
  (List.range' 1 5).map (fun i =>
    { email := "instructor" ++ toString i ++ "@example.com",
      firstName := "Instructor", lastName := toString i, role := "instructor",
      profile := some
        { bio := some ("Experienced educator in " ++ toString i),
          skills := some ["Python", "Data Science", "Machine Learning"] },
      isActive := none, createdAt := none })

/-- The eight sample course documents (notebook, Part 2), given the list of
instructor identifiers returned by the user inserts. -/
def courseDocs (instructorIds : List Nat) : List CourseDoc :=
  (List.range' 1 8).map (fun i =>
    { title := "Course " ++ toString i,
      description := "Description for course " ++ toString i,
      instructorId := instructorIds.getD (i % instructorIds.length) 0,
      category := "Category " ++ toString (i % 3 + 1),
      level := (["beginner", "intermediate", "advanced"].getD ((i - 1) % 3) ""),
      price := (9999 : Rat) / 100 * i,
      tags := ["programming", "data science", "machine learning"] })

/-- Insert a batch of user documents in order, collecting the identifiers
of the successful inserts (the notebook's list comprehension over
`db.add_user`). -/
def add_users_all (db : EduHubDB) (docs : List UserDoc) :
    List Nat × EduHubDB :=
  docs.foldl (fun acc doc =>
    match add_user acc.2 doc with
    | (Except.ok id, db2) => (acc.1 ++ [id], db2)
    | (Except.error _, db2) => (acc.1, db2)) ([], db)

/-- Insert a batch of course documents in order, collecting the generated
identifiers. -/
def add_courses_all (db : EduHubDB) (docs : List CourseDoc) :
    List Nat × EduHubDB :=
  docs.foldl (fun acc doc =>
    let r := add_course acc.2 doc
    (acc.1 ++ [r.1], r.2)) ([], db)

/-- The notebook's enrollment loop (Part 3): student at position `i` is
enrolled into the course at position `i % len(course_ids)`. -/
def enroll_round_robin (db : EduHubDB) (studentIds courseIds : List Nat) :
    EduHubDB :=
  studentIds.enum.foldl (fun acc p =>
    (enroll_student acc p.2 (courseIds.getD (p.1 % courseIds.length) 0)).2) db

/-- Index setup (notebook, Part 1). -/
def dbAfterIndexes : EduHubDB := create_indexes emptyDB

/-- Student inserts: the identifier list and the resulting state. -/
def studentInsert : List Nat × EduHubDB := add_users_all dbAfterIndexes studentDocs

/-- Instructor inserts, continuing from the student inserts. -/
def instructorInsert : List Nat × EduHubDB :=
  add_users_all studentInsert.2 instructorDocs

/-- Course inserts, wired to the instructor identifiers as in the
notebook. -/
def courseInsert : List Nat × EduHubDB :=
  add_courses_all instructorInsert.2 (courseDocs instructorInsert.1)

/-- The state after the notebook's round-robin enrollment loop. -/
def scenarioDB : EduHubDB :=
  enroll_round_robin courseInsert.2 studentInsert.1 courseInsert.1

/-- The invalid document of the notebook's error-handling cell (Part 6):
the email has no `@` and the role is outside the enumeration. -/
def invalidUserDoc : UserDoc :=
  { email := "invalid-email", firstName := "Invalid", lastName := "User",
    role := "invalid_role", profile := none, isActive := none, createdAt := none }

/-- The first sample student document (the `i = 1` instance of the
notebook's comprehension). -/
def sampleStudent : UserDoc :=
  { email := "student1@example.com", firstName := "Student", lastName := "1",
    role := "student", profile := none, isActive := none, createdAt := none }

/-! ## Helper lemmas -/

/-- Searching an appended list skips a first part none of whose elements
match. -/
theorem find?_append_of_none {α : Type} (l₁ l₂ : List α) (p : α → Bool)
    (h : ∀ a ∈ l₁, p a = false) : (l₁ ++ l₂).find? p = l₂.find? p := by
  rw [List.find?_append]
  have h1 : l₁.find? p = none := List.find?_eq_none.mpr (by
    intro x hx
    simp [h x hx])
  simp [h1]

/-- Searching a key-tagged image of a list by key is searching the list. -/
theorem find?_map_pair (ks : List Nat) (g : Nat → Nat) (c : Nat) :
    (ks.map (fun x => (x, g x))).find? (fun row => row.1 == c) =
      (ks.find? (fun x => x == c)).map (fun x => (x, g x)) := by
  induction ks with
  | nil => rfl
  | cons k ks ih =>
    simp only [List.map_cons, List.find?_cons]
    cases hk : (k == c) with
    | true => simp [hk]
    | false => simp [hk, ih]

/-- Searching for an element known to be present by `==` finds it. -/
theorem find?_beq_self_of_mem (ks : List Nat) (c : Nat) (h : c ∈ ks) :
    ks.find? (fun x => x == c) = some c := by
  induction ks with
  | nil => cases h
  | cons k ks ih =>
    rw [List.find?_cons]
    rcases List.mem_cons.mp h with h1 | h2
    · subst h1
      simp
    · cases hk : (k == c) with
      | true =>
        have : k = c := by simpa using hk
        subst this
        simp
      | false => simpa using ih h2

/-- The count the aggregation's group row attributes to a course is the
number of enrollment documents referencing it. -/
theorem statsFor_eq_enrollCount (db : EduHubDB) (c : Nat) :
    statsFor db c = enrollCount db c := by
  unfold statsFor get_course_enrollment_stats
  rw [find?_map_pair]
  by_cases hc : c ∈ (db.enrollments.map (fun e => e.2.courseId)).dedup
  · rw [find?_beq_self_of_mem _ _ hc]
    rfl
  · have hnone :
        (db.enrollments.map (fun e => e.2.courseId)).dedup.find?
          (fun x => x == c) = none := by
      apply List.find?_eq_none.mpr
      intro x hx hxc
      exact hc (by rwa [show x = c by simpa using hxc] at hx)
    have hcount : enrollCount db c = 0 := by
      unfold enrollCount
      rw [List.length_eq_zero]
      apply List.filter_eq_nil_iff.mpr
      intro e he heq
      apply hc
      rw [List.mem_dedup]
      exact List.mem_map.mpr ⟨e, he, by simpa using heq⟩
    rw [hnone, hcount]
    rfl

/-! ## Claim theorems -/

/-- C1.  For every User document whose email is malformed, `add_user` fails
with a validation error and the database state — in particular the `users`
collection — is unchanged: nothing is inserted. -/
theorem add_user_malformed_email_rejected (db : EduHubDB) (doc : UserDoc)
    (h : valid_email doc.email = false) :
    (add_user db doc).1 = Except.error "ValidationError" ∧
    (add_user db doc).2 = db := by
  simp [add_user, h]

/-- Witness for C1 at the notebook's own invalid document (Part 6). -/
theorem add_user_malformed_email_rejected_witness :
    valid_email invalidUserDoc.email = false ∧
    ((add_user emptyDB invalidUserDoc).1 = Except.error "ValidationError" ∧
      (add_user emptyDB invalidUserDoc).2 = emptyDB) :=
  ⟨by decide, add_user_malformed_email_rejected emptyDB invalidUserDoc (by decide)⟩

/-- C2.  For every valid User document — required fields present,
syntactically valid email, role in the enumeration — `add_user` returns an
identifier that resolves to the inserted document, whose stored role is one
of `student`/`instructor`.  Identifier freshness (`users_wf`, which every
state reachable from `emptyDB` satisfies) makes the lookup well posed. -/
theorem add_user_valid_resolvable (db : EduHubDB) (doc : UserDoc)
    (hwf : users_wf db)
    (he : valid_email doc.email = true)
    (hr : doc.role = "student" ∨ doc.role = "instructor") :
    ∃ id stored,
      (add_user db doc).1 = Except.ok id ∧
      find_user_by_id (add_user db doc).2 id = some stored ∧
      (stored.role = "student" ∨ stored.role = "instructor") := by
  have hrole : valid_role doc.role = true := by
    rcases hr with h | h <;> simp [valid_role, h]
  have hstate : (add_user db doc).2 =
      { db with users := db.users ++ [(db.nextId, doc)],
                nextId := db.nextId + 1 } := by
    simp [add_user, he, hrole]
  refine ⟨db.nextId, doc, ?_, ?_, hr⟩
  · simp [add_user, he, hrole]
  · rw [hstate]
    unfold find_user_by_id
    rw [find?_append_of_none]
    · simp
    · intro q hq
      exact beq_eq_false_iff_ne.mpr (Nat.ne_of_lt (hwf q hq))

/-- Witness for C2: the first sample student inserted into the empty
database. -/
theorem add_user_valid_resolvable_witness :
    users_wf emptyDB ∧ valid_email sampleStudent.email = true ∧
    (∃ id stored,
      (add_user emptyDB sampleStudent).1 = Except.ok id ∧
      find_user_by_id (add_user emptyDB sampleStudent).2 id = some stored ∧
      (stored.role = "student" ∨ stored.role = "instructor")) :=
  ⟨by decide, by decide,
    add_user_valid_resolvable emptyDB sampleStudent (by decide) (by decide)
      (Or.inl rfl)⟩

/-- C3.  For every database state and identifiers `s`, `c`, a call
`enroll_student s c` succeeds and afterwards the enrollment statistics
attribute at least one more enrollment to course `c` than before. -/
theorem enroll_student_stats_increment (db : EduHubDB) (s c : Nat) :
    ((enroll_student db s c).1).isOk = true ∧
    statsFor db c + 1 ≤ statsFor (enroll_student db s c).2 c := by
  refine ⟨rfl, ?_⟩
  rw [statsFor_eq_enrollCount, statsFor_eq_enrollCount]
  have h : enrollCount (enroll_student db s c).2 c = enrollCount db c + 1 := by
    simp [enroll_student, enrollCount, List.filter_append]
  rw [h]

/-- C4.  The notebook's scenario — 10 students and 5 instructors, then 8
courses, then round-robin enrollment of the students — yields 8 courses
whose per-course enrollment counts sum to 10. -/
theorem scenario_enrollment_counts_sum_ten :
    studentInsert.1.length = 10 ∧ instructorInsert.1.length = 5 ∧
    courseInsert.1.length = 8 ∧
    (courseInsert.1.map (statsFor scenarioDB)).sum = 10 := by
  decide

/-- C5.  The notebook's price query returns exactly the stored courses
whose `price` lies in the closed interval `[50, 200]`. -/
theorem price_range_query_exact (db : EduHubDB) (p : Nat × CourseDoc) :
    p ∈ find_courses_by_price db priceRangeFilter ↔
      (p ∈ db.courses ∧ 50 ≤ p.2.price ∧ p.2.price ≤ 200) := by
  simp [find_courses_by_price, priceRangeFilter, evalNumCond, List.mem_filter,
    and_assoc]

/-- Applying the `profile.bio` `$set` twice equals applying it once. -/
theorem applyField_bio_idem (w : UserDoc) (v : String) :
    applyField (applyField w (UpdateField.profileBio v))
        (UpdateField.profileBio v) =
      applyField w (UpdateField.profileBio v) := by
  simp [applyField]

/-- Per-entry idempotence of the `profile.bio` update. -/
theorem updateEntry_bio_idem (u : Nat) (v : String) (p : Nat × UserDoc) :
    updateEntry u [UpdateField.profileBio v]
        (updateEntry u [UpdateField.profileBio v] p) =
      updateEntry u [UpdateField.profileBio v] p := by
  by_cases h : (p.1 == u) = true
  · simp [updateEntry, h, applyField_bio_idem]
  · simp [updateEntry, h]

/-- C6.  `update_user_profile` is idempotent on `profile.bio`: for every
user identifier and bio value, applying the update twice leaves the
database identical to its state after the first application. -/
theorem update_profile_bio_idempotent (db : EduHubDB) (u : Nat) (v : String) :
    update_user_profile (update_user_profile db u [UpdateField.profileBio v]) u
        [UpdateField.profileBio v] =
      update_user_profile db u [UpdateField.profileBio v] := by
  have h : (db.users.map (updateEntry u [UpdateField.profileBio v])).map
      (updateEntry u [UpdateField.profileBio v]) =
      db.users.map (updateEntry u [UpdateField.profileBio v]) := by
    rw [List.map_map]
    exact List.map_congr_left (fun p _ => updateEntry_bio_idem u v p)
  simp only [update_user_profile, h]

/-- C8.  When the identifier matches no stored user, `update_user_profile`
succeeds as a no-op: the database — every collection — is unchanged. -/
theorem update_user_profile_missing_id (db : EduHubDB) (userId : Nat)
    (partialFields : List UpdateField)
    (h : ∀ p ∈ db.users, p.1 ≠ userId) :
    update_user_profile db userId partialFields = db := by
  have husers : db.users.map (updateEntry userId partialFields) = db.users := by
    have hpt := List.map_congr_left (l := db.users)
      (f := updateEntry userId partialFields) (g := id)
      (fun p hp => by simp [updateEntry, beq_eq_false_iff_ne.mpr (h p hp)])
    simpa using hpt
  simp only [update_user_profile, husers]

/-- Witness for C8: updating the absent identifier `99` after one insert
leaves the one-user state untouched. -/
theorem update_user_profile_missing_id_witness :
    (∀ p ∈ ((add_user emptyDB sampleStudent).2).users, p.1 ≠ 99) ∧
    update_user_profile (add_user emptyDB sampleStudent).2 99
        [UpdateField.profileBio "x"] =
      (add_user emptyDB sampleStudent).2 :=
  ⟨by decide,
    update_user_profile_missing_id (add_user emptyDB sampleStudent).2 99
      [UpdateField.profileBio "x"] (by decide)⟩

/-- Declaring an index already present is a no-op. -/
theorem declareIndex_of_mem (d : EduHubDB) (s : IndexSpec)
    (h : s ∈ d.indexes) : declareIndex d s = d := by
  simp [declareIndex, h]

/-- After declaring an index it is present. -/
theorem mem_declareIndex (d : EduHubDB) (s : IndexSpec) :
    s ∈ (declareIndex d s).indexes := by
  by_cases h : s ∈ d.indexes <;> simp [declareIndex, h]

/-- C9.  `create_indexes` is idempotent — a second call leaves the declared
indexes, including the unique index on `email`, exactly as after the first
call — and, being total, it never fails. -/
theorem create_indexes_idempotent (db : EduHubDB) :
    create_indexes (create_indexes db) = create_indexes db ∧
    uniqueEmailIndex ∈ (create_indexes db).indexes := by
  have hfold : ∀ d : EduHubDB, create_indexes d = declareIndex d uniqueEmailIndex :=
    fun d => rfl
  refine ⟨?_, ?_⟩
  · rw [hfold, hfold]
    exact declareIndex_of_mem _ _ (mem_declareIndex db uniqueEmailIndex)
  · rw [hfold]
    exact mem_declareIndex db uniqueEmailIndex

/-- C10.  Every sample student document omits `isActive`, and with
documents stored exactly as supplied the notebook's active-students read
(`role = student`, `isActive = true`) on the populated state returns the
empty set. -/
theorem population_active_students_empty :
    (∀ d ∈ studentDocs, d.isActive = none) ∧
    find_active_students scenarioDB = [] := by
  decide

end EduHub
